import Mathlib

/-!
# SlideForge AI — client-side session orchestration, shallow embedding

This file embeds the upload-and-chat orchestration of the SlideForge AI
frontend (`ChatInterface.js`, `App.js`, `services/api.js`) as pure Lean
functions and proves the specified properties about them.

Modelling conventions, matching React semantics:

* React component state (`useState` hooks of `ChatInterface` plus the
  conversation id and session flags lifted into `App`) is one record,
  `ReactState`.
* An event handler (`handleSend`, `handleGenerateSlides`) captures the
  render-time values of props and state in its closure.  Those captured
  values do not change while the handler runs, even after a `setX` call.
  We model this by passing the entry state `s0` (the captured snapshot)
  separately from the store `st` that the `setX` calls mutate; guards in
  the source that read `conversationId` or `messages` read from `s0`,
  while `setConversationId` / functional `setMessages` updates write `st`.
  This is faithful because the `loading` flag serializes handlers, so no
  re-render interleaves with a running handler.
* The remote service (`api.js`: `uploadFile`, `sendMessage`,
  `generateSlides`) is an oracle `Env` mapping each request to a response,
  `Except ErrInfo _` standing for the promise resolving or rejecting.
  Every issued request is also recorded as a `NetEvent` in an ordered
  trace, so ordering properties are statements about that list.
* JavaScript truthiness of the string fields involved (`conversation_id`,
  error `detail`): `Option String` with `none` covering both absent and
  the falsy empty string.
-/

namespace SlideForge

/-- Message roles, the `role` field of chat messages in `ChatInterface.js`. -/
inductive Role where
  | user
  | assistant
  | system
deriving DecidableEq, Repr

/-- An attached-file descriptor as stored in a message's `files` array:
`{ name: ..., type: 'document' | 'brand' }`. -/
inductive FilePurpose where
  | document
  | brand
deriving DecidableEq, Repr

/-- Entry of a message's `files` list (`{ name, type }`). -/
structure FileDesc where
  name : String
  type : FilePurpose
deriving DecidableEq, Repr

/-- A chat message as built by `ChatInterface.js`: role, content, an
optional `slideDownloadUrl` and an optional list of attached files. -/
structure Message where
  role : Role
  content : String
  slideDownloadUrl : Option String := none
  files : List FileDesc := []
deriving DecidableEq, Repr

/-- History entry sent to the chat endpoint: `{ role: m.role, content: m.content }`. -/
structure HistEntry where
  role : Role
  content : String
deriving DecidableEq, Repr

/-- Response consumed from `POST /api/upload` (`uploadFile` in `api.js`):
`conversation_id` and `summary`. -/
structure UploadResult where
  conversation_id : Option String
  summary : String
deriving DecidableEq, Repr

/-- Response consumed from `POST /api/chat` (`sendMessage` in `api.js`):
`conversation_id`, `reply`, `slide_download_url`. -/
structure ChatResult where
  conversation_id : Option String
  reply : String
  slide_download_url : Option String
deriving DecidableEq, Repr

/-- Response consumed from `POST /api/generate-slides` (`generateSlides`
in `api.js`): `deck_title`, `num_slides`, `download_url`. -/
structure GenResult where
  deck_title : String
  num_slides : Nat
  download_url : String
deriving DecidableEq, Repr

/-- A failed call, as consumed by the catch blocks:
`err.response?.data?.detail || err.message`.  `detail` is the optional
service-provided detail (`none` when absent or empty), `message` the
transport-level message. -/
structure ErrInfo where
  detail : Option String
  message : String
deriving DecidableEq, Repr

/-- The text the catch blocks display: `err.response?.data?.detail || err.message`. -/
def ErrInfo.text (e : ErrInfo) : String :=
  e.detail.getD e.message

/-- One request issued to the remote service, in issue order.  `upload`
records the file name, the `conversation_id` carried in the request and
the `file_purpose`; `chat` records the message, `conversation_id` and
`history`; `generate` records the `conversation_id` query parameter. -/
inductive NetEvent where
  | upload (fileName : String) (conversationId : Option String) (filePurpose : FilePurpose)
  | chat (message : String) (conversationId : Option String) (history : List HistEntry)
  | generate (conversationId : String)
deriving DecidableEq, Repr

/-- Whether a trace event is a chat request. -/
def NetEvent.isChat : NetEvent → Bool
  | .chat _ _ _ => true
  | _ => false

/-- Whether a trace event is an upload request. -/
def NetEvent.isUpload : NetEvent → Bool
  | .upload _ _ _ => true
  | _ => false

/-- The remote service as a response oracle: one function per endpoint of
`api.js`, mapping the request data to the promise's outcome. -/
structure Env where
  uploadResp : String → Option String → FilePurpose → Except ErrInfo UploadResult
  chatResp : String → Option String → List HistEntry → Except ErrInfo ChatResult
  generateResp : String → Except ErrInfo GenResult

/-- The combined client state: the `useState` hooks of `ChatInterface`
(`messages`, `input`, `loading`, `uploading`, `hasDocuments`, `hasBrand`,
`pendingDocument`, `pendingBrand`) together with `conversationId`, which
lives in `App` and is passed down as a prop.  Pending files are modelled
by their names. -/
structure ReactState where
  conversationId : Option String
  messages : List Message
  input : String
  loading : Bool
  uploading : Bool
  hasDocuments : Bool
  hasBrand : Bool
  pendingDocument : Option String
  pendingBrand : Option String
deriving DecidableEq, Repr

/-- The initial state: every hook's declared initial value
(`useState(null)`, `useState([])`, `useState('')`, `useState(false)`). -/
def initialState : ReactState :=
  { conversationId := none
    messages := []
    input := ""
    loading := false
    uploading := false
    hasDocuments := false
    hasBrand := false
    pendingDocument := none
    pendingBrand := none }

/-- The function `handleNewChat` in `App.js`: sets `conversationId` to null and both
session flags to false, and increments `chatKey`; the changed `key` prop
remounts `ChatInterface`, re-initializing its `useState` hooks
(messages, input, loading, uploading, pending slots) to their declared
initial values. -/
def handleNewChat (_s : ReactState) : ReactState :=
  { conversationId := none
    messages := []
    input := ""
    loading := false
    uploading := false
    hasDocuments := false
    hasBrand := false
    pendingDocument := none
    pendingBrand := none }

/-- The attachment chips of the optimistic user message:
`if (docFile) attachments.push(...)`, `if (brandFile) attachments.push(...)`. -/
def attachmentLabels (docFile brandFile : Option String) : List String :=
  (match docFile with | some f => ["📄 " ++ f] | none => []) ++
  (match brandFile with | some f => ["🎨 " ++ f] | none => [])

/-- The `files` list of the optimistic user message. -/
def attachmentDescs (docFile brandFile : Option String) : List FileDesc :=
  (match docFile with | some f => [⟨f, .document⟩] | none => []) ++
  (match brandFile with | some f => [⟨f, .brand⟩] | none => [])

/-- JavaScript `String.prototype.trim()` as an executable function on the
character list: strips leading and trailing whitespace.  (`input.trim()`
in `handleSend`; Lean's own `String.trim` is extensionally the same on
the ASCII whitespace involved but does not reduce in the kernel.) -/
def jsTrim (s : String) : String :=
  ⟨((s.data.dropWhile Char.isWhitespace).reverse.dropWhile Char.isWhitespace).reverse⟩

/-- The optimistic user message `fileMsg` appended before any upload
resolves (`handleSend`, the attachment branch). -/
def fileMsgOf (userMessage : String) (docFile brandFile : Option String) : Message :=
  { role := .user
    content :=
      if userMessage ≠ "" then
        userMessage ++ "\n\n" ++ String.intercalate "\n" (attachmentLabels docFile brandFile)
      else
        "Uploading: " ++ String.intercalate ", " (attachmentLabels docFile brandFile)
    files := attachmentDescs docFile brandFile }

/-- The system message appended by a catch block in `handleSend`. -/
def errMsg (e : ErrInfo) : Message :=
  { role := .system, content := "Error: " ++ e.text }

/-- The system message carrying the document-upload summary. -/
def sysMsg (s : String) : Message :=
  { role := .system, content := s }

/-- The assistant message appended after a successful chat call. -/
def assistantMsgOf (r : ChatResult) : Message :=
  { role := .assistant, content := r.reply, slideDownloadUrl := r.slide_download_url }

/-- The `history` payload of a chat request: the component's captured
`messages`, system entries filtered out, mapped to `{ role, content }`. -/
def mkHistory (msgs : List Message) : List HistEntry :=
  (msgs.filter (fun m => m.role ≠ Role.system)).map (fun m => ⟨m.role, m.content⟩)

/-- JavaScript short-circuit `a || b` on nullable strings
(`existingConvId || conversationId` in `doUploadFile`). -/
def jsOrElse (a b : Option String) : Option String :=
  match a with
  | some x => some x
  | none => b

/-- The function `doUploadFile` in `ChatInterface.js`.  `capturedConvId` is the
render-time `conversationId` prop captured by the closure; `st` is the
store the `set` calls mutate.  Returns the promise outcome, the store
after the call, and the issued request.

Source: sets `uploading` true; `convIdToUse = existingConvId || conversationId`;
awaits `uploadFile(file, convIdToUse, purpose)`; on success adopts
`result.conversation_id` only when the captured `conversationId` is null
(`if (result.conversation_id && !conversationId)`), then flips the flag
for the purpose; rethrows failures; finally clears `uploading`. -/
def doUploadFile (env : Env) (capturedConvId : Option String) (st : ReactState)
    (file : String) (filePurpose : FilePurpose) (existingConvId : Option String) :
    Except ErrInfo UploadResult × ReactState × List NetEvent :=
  let st := { st with uploading := true }
  let convIdToUse := jsOrElse existingConvId capturedConvId
  let ev := NetEvent.upload file convIdToUse filePurpose
  match env.uploadResp file convIdToUse filePurpose with
  | .error e => (.error e, { st with uploading := false }, [ev])
  | .ok result =>
    let st :=
      if result.conversation_id.isSome && capturedConvId.isNone then
        { st with conversationId := result.conversation_id }
      else st
    let st :=
      match filePurpose with
      | .brand => { st with hasBrand := true }
      | .document => { st with hasDocuments := true }
    (.ok result, { st with uploading := false }, [ev])

/-- Outcome threaded through the attachment branch of `handleSend`: a
failure carries the error together with the store and trace at the moment
the promise rejected (the catch block receives the state as already
mutated). -/
abbrev StepFail := ErrInfo × ReactState × List NetEvent

/-- The document-upload step of `handleSend`'s attachment branch
(`if (docFile) { ... }`): uploads with `activeConvId = conversationId`
(captured), then sets `activeConvId = docResult.conversation_id` and
appends a system message with the summary.  When no document is pending,
`activeConvId` keeps the captured conversation id. -/
def docStep (env : Env) (capturedConvId : Option String) (docFile : Option String)
    (st : ReactState) : Except StepFail (Option String × ReactState × List NetEvent) :=
  match docFile with
  | none => .ok (capturedConvId, st, [])
  | some d =>
    match doUploadFile env capturedConvId st d .document capturedConvId with
    | (.error e, st1, evs1) => .error (e, st1, evs1)
    | (.ok docResult, st1, evs1) =>
      let st1 := { st1 with messages := st1.messages ++ [sysMsg docResult.summary] }
      .ok (docResult.conversation_id, st1, evs1)

/-- The brand-upload step (`if (brandFile) { ... }`): uploads carrying
`activeConvId` from the document step, silently (no message appended),
then sets `activeConvId = brandResult.conversation_id`. -/
def brandStep (env : Env) (capturedConvId : Option String) (brandFile : Option String)
    (acc : Option String × ReactState × List NetEvent) :
    Except StepFail (Option String × ReactState × List NetEvent) :=
  let (activeConvId, st, evs) := acc
  match brandFile with
  | none => .ok (activeConvId, st, evs)
  | some b =>
    match doUploadFile env capturedConvId st b .brand activeConvId with
    | (.error e, st2, evs2) => .error (e, st2, evs ++ evs2)
    | (.ok brandResult, st2, evs2) => .ok (brandResult.conversation_id, st2, evs ++ evs2)

/-- The chat step of the attachment branch (`if (userMessage) { ... }`):
sends the chat request with the captured messages' history and
`activeConvId`; on success sets `conversationId` to the reply's id
whenever that id is truthy (`if (chatResult.conversation_id)` — no
null-check on the prior value here), and appends the assistant message. -/
def chatStep (env : Env) (userMessage : String) (capturedMessages : List Message)
    (acc : Option String × ReactState × List NetEvent) :
    Except StepFail (ReactState × List NetEvent) :=
  let (activeConvId, st, evs) := acc
  if userMessage ≠ "" then
    let history := mkHistory capturedMessages
    let ev := NetEvent.chat userMessage activeConvId history
    match env.chatResp userMessage activeConvId history with
    | .error e => .error (e, st, evs ++ [ev])
    | .ok chatResult =>
      let st :=
        if chatResult.conversation_id.isSome then
          { st with conversationId := chatResult.conversation_id }
        else st
      let st := { st with messages := st.messages ++ [assistantMsgOf chatResult] }
      .ok (st, evs ++ [ev])
  else
    .ok (st, evs)

/-- The function `handleSend` in `ChatInterface.js`.  Takes the oracle and the state at
the moment the handler fires (which is also the render snapshot its
closure captured) and returns the state once the handler's promise chain
settles, together with the ordered trace of issued requests.

Source structure: guard `(!input.trim() && !hasPendingFiles) || loading`;
snapshot `userMessage`, `docFile`, `brandFile` and clear input and both
pending slots; if any file was pending, append the optimistic `fileMsg`
and run document upload → brand upload → optional chat inside one
try/catch whose catch appends a single `Error:` system message; otherwise
append the plain user message and run the chat call with its own
try/catch, adopting the reply's conversation id only when the captured
one was null; finally clear `loading`. -/
def handleSend (env : Env) (s0 : ReactState) : ReactState × List NetEvent :=
  if (jsTrim s0.input = "" ∧ s0.pendingDocument = none ∧ s0.pendingBrand = none) ∨
      s0.loading = true then
    (s0, [])
  else
    let userMessage := jsTrim s0.input
    let docFile := s0.pendingDocument
    let brandFile := s0.pendingBrand
    let st := { s0 with
                input := ""
                loading := true
                pendingDocument := none
                pendingBrand := none }
    if docFile.isSome || brandFile.isSome then
      let st := { st with messages := st.messages ++ [fileMsgOf userMessage docFile brandFile] }
      let outcome :=
        (docStep env s0.conversationId docFile st).bind
          (fun acc => (brandStep env s0.conversationId brandFile acc).bind
            (fun acc2 => chatStep env userMessage s0.messages acc2))
      match outcome with
      | .ok (st, evs) => ({ st with loading := false }, evs)
      | .error (e, st, evs) =>
        ({ st with messages := st.messages ++ [errMsg e], loading := false }, evs)
    else
      let st := { st with messages := st.messages ++ [({ role := .user, content := userMessage } : Message)] }
      let history := mkHistory s0.messages
      let ev := NetEvent.chat userMessage s0.conversationId history
      match env.chatResp userMessage s0.conversationId history with
      | .error e =>
        ({ st with messages := st.messages ++ [errMsg e], loading := false }, [ev])
      | .ok result =>
        let st :=
          if result.conversation_id.isSome && s0.conversationId.isNone then
            { st with conversationId := result.conversation_id }
          else st
        ({ st with messages := st.messages ++ [assistantMsgOf result], loading := false }, [ev])

/-- The assistant message appended after a successful generate call:
`Your presentation "..." with N slides has been generated successfully!`. -/
def genMsgOf (r : GenResult) : Message :=
  { role := .assistant
    content := "Your presentation \"" ++ r.deck_title ++ "\" with " ++
      toString r.num_slides ++ " slides has been generated successfully!"
    slideDownloadUrl := some r.download_url }

/-- The function `handleGenerateSlides` in `ChatInterface.js`: guard
`!conversationId || loading`; append the synthetic user message; await
`generateSlides(conversationId)`; on success append the assistant message
with the download url, on failure a system error message; clear `loading`. -/
def handleGenerateSlides (env : Env) (s0 : ReactState) : ReactState × List NetEvent :=
  match s0.conversationId with
  | none => (s0, [])
  | some cid =>
    if s0.loading = true then (s0, [])
    else
      let st := { s0 with loading := true }
      let st := { st with messages :=
        st.messages ++ [({ role := .user, content := "Generate my slide deck now." } : Message)] }
      match env.generateResp cid with
      | .ok result =>
        ({ st with messages := st.messages ++ [genMsgOf result], loading := false },
         [NetEvent.generate cid])
      | .error e =>
        ({ st with
           messages := st.messages ++
             [({ role := .system, content := "Error generating slides: " ++ e.text } : Message)]
           loading := false },
         [NetEvent.generate cid])

/-! ## Helper lemmas -/

/-- The conversation id after the adoption guard of a successful response:
the response id is adopted exactly when it is truthy and the captured id
was null. -/
def adoptId (captured respId cur : Option String) : Option String :=
  if respId.isSome && captured.isNone then respId else cur

theorem jsOrElse_self (c : Option String) : jsOrElse c c = c := by
  cases c <;> rfl

theorem docStep_none (env : Env) (c : Option String) (st : ReactState) :
    docStep env c none st = .ok (c, st, []) := rfl

theorem docStep_some_err {env : Env} {c : Option String} {st : ReactState}
    {d : String} {e : ErrInfo}
    (hr : env.uploadResp d c .document = .error e) :
    docStep env c (some d) st =
      .error (e, { st with uploading := false }, [.upload d c .document]) := by
  simp only [docStep, doUploadFile, jsOrElse_self, hr]

theorem docStep_some_ok {env : Env} {c : Option String} {st : ReactState}
    {d : String} {r : UploadResult}
    (hr : env.uploadResp d c .document = .ok r) :
    docStep env c (some d) st =
      .ok (r.conversation_id,
        { st with
          conversationId := adoptId c r.conversation_id st.conversationId
          messages := st.messages ++ [sysMsg r.summary]
          hasDocuments := true
          uploading := false },
        [.upload d c .document]) := by
  simp only [docStep, doUploadFile, jsOrElse_self, hr, adoptId]
  split <;> rfl

theorem brandStep_none (env : Env) (c a : Option String) (st : ReactState)
    (evs : List NetEvent) :
    brandStep env c none (a, st, evs) = .ok (a, st, evs) := rfl

theorem brandStep_some_err {env : Env} {c a : Option String} {st : ReactState}
    {evs : List NetEvent} {b : String} {e : ErrInfo}
    (hr : env.uploadResp b (jsOrElse a c) .brand = .error e) :
    brandStep env c (some b) (a, st, evs) =
      .error (e, { st with uploading := false },
        evs ++ [.upload b (jsOrElse a c) .brand]) := by
  simp only [brandStep, doUploadFile, hr]

theorem brandStep_some_ok {env : Env} {c a : Option String} {st : ReactState}
    {evs : List NetEvent} {b : String} {r : UploadResult}
    (hr : env.uploadResp b (jsOrElse a c) .brand = .ok r) :
    brandStep env c (some b) (a, st, evs) =
      .ok (r.conversation_id,
        { st with
          conversationId := adoptId c r.conversation_id st.conversationId
          hasBrand := true
          uploading := false },
        evs ++ [.upload b (jsOrElse a c) .brand]) := by
  simp only [brandStep, doUploadFile, hr, adoptId]
  split <;> rfl

theorem chatStep_empty (env : Env) (M : List Message) (a : Option String)
    (st : ReactState) (evs : List NetEvent) :
    chatStep env "" M (a, st, evs) = .ok (st, evs) := rfl

theorem chatStep_ne_err {env : Env} {m : String} {M : List Message}
    {a : Option String} {st : ReactState} {evs : List NetEvent} {e : ErrInfo}
    (hm : m ≠ "") (hr : env.chatResp m a (mkHistory M) = .error e) :
    chatStep env m M (a, st, evs) =
      .error (e, st, evs ++ [.chat m a (mkHistory M)]) := by
  simp only [chatStep, if_pos hm, hr]

theorem chatStep_ne_ok {env : Env} {m : String} {M : List Message}
    {a : Option String} {st : ReactState} {evs : List NetEvent} {r : ChatResult}
    (hm : m ≠ "") (hr : env.chatResp m a (mkHistory M) = .ok r) :
    chatStep env m M (a, st, evs) =
      .ok ({ st with
             conversationId :=
               if r.conversation_id.isSome then r.conversation_id
               else st.conversationId
             messages := st.messages ++ [assistantMsgOf r] },
           evs ++ [.chat m a (mkHistory M)]) := by
  simp only [chatStep, if_pos hm, hr]
  split <;> rfl

theorem exceptBind_ok {α β ε : Type} (x : α) (f : α → Except ε β) :
    (Except.ok x : Except ε α).bind f = f x := rfl

theorem exceptBind_error {α β ε : Type} (e : ε) (f : α → Except ε β) :
    (Except.error e : Except ε α).bind f = .error e := rfl

/-- Unfolding of `handleSend` when the guard passes and at least one
attachment is pending: the optimistic message is appended and the
document → brand → chat pipeline runs, the catch appending one error
message. -/
theorem handleSend_files {env : Env} {s0 : ReactState}
    (hg : ¬((jsTrim s0.input = "" ∧ s0.pendingDocument = none ∧ s0.pendingBrand = none) ∨
        s0.loading = true))
    (hp : (s0.pendingDocument.isSome || s0.pendingBrand.isSome) = true) :
    handleSend env s0 =
      match (docStep env s0.conversationId s0.pendingDocument
              { s0 with
                messages := s0.messages ++
                  [fileMsgOf (jsTrim s0.input) s0.pendingDocument s0.pendingBrand]
                input := ""
                loading := true
                pendingDocument := none
                pendingBrand := none }).bind
            (fun acc => (brandStep env s0.conversationId s0.pendingBrand acc).bind
              (fun acc2 => chatStep env (jsTrim s0.input) s0.messages acc2)) with
      | .ok (st, evs) => ({ st with loading := false }, evs)
      | .error (e, st, evs) =>
        ({ st with messages := st.messages ++ [errMsg e], loading := false }, evs) := by
  unfold handleSend
  rw [if_neg hg]
  simp only [hp, if_true]

/-- Unfolding of `handleSend` when the guard passes and no attachment is
pending: the raw user message is appended and the chat call runs. -/
theorem handleSend_text {env : Env} {s0 : ReactState}
    (hg : ¬((jsTrim s0.input = "" ∧ s0.pendingDocument = none ∧ s0.pendingBrand = none) ∨
        s0.loading = true))
    (hd : s0.pendingDocument = none) (hb : s0.pendingBrand = none) :
    handleSend env s0 =
      (let st := { s0 with
        messages := s0.messages ++
          [({ role := .user, content := jsTrim s0.input } : Message)]
        input := ""
        loading := true
        pendingDocument := none
        pendingBrand := none }
      match env.chatResp (jsTrim s0.input) s0.conversationId (mkHistory s0.messages) with
      | .error e =>
        ({ st with messages := st.messages ++ [errMsg e], loading := false },
         [.chat (jsTrim s0.input) s0.conversationId (mkHistory s0.messages)])
      | .ok result =>
        let st :=
          if result.conversation_id.isSome && s0.conversationId.isNone then
            { st with conversationId := result.conversation_id }
          else st
        ({ st with messages := st.messages ++ [assistantMsgOf result], loading := false },
         [.chat (jsTrim s0.input) s0.conversationId (mkHistory s0.messages)])) := by
  unfold handleSend
  rw [if_neg hg]
  simp only [hd, hb, Option.isSome_none, Bool.or_self, Bool.false_eq_true, if_false]

/-! ## Concrete instances used by the witness theorems -/

/-- A response oracle where every endpoint succeeds and every response
carries conversation id `"abc123"`. -/
def envW : Env :=
  { uploadResp := fun f _ _ =>
      .ok { conversation_id := some "abc123", summary := "Summary of " ++ f }
    chatResp := fun _ _ _ =>
      .ok { conversation_id := some "abc123", reply := "Reply", slide_download_url := none }
    generateResp := fun _ =>
      .ok { deck_title := "Deck", num_slides := 3, download_url := "/files/deck.pptx" } }

/-- A state with an operation in flight. -/
def busyW : ReactState := { initialState with loading := true }

/-! ## Claims -/

/-- C8: `submit(userText)` is rejected as a no-op — no state change, no
network call, no message appended — when the trimmed text is empty and no
attachment is pending; in addition, while an operation is in flight the
busy flag blocks re-entry into both `submit` and `generate`, so at most
one submit executes at a time. -/
theorem submit_rejects_empty_and_busy_blocks (env : Env) (s : ReactState) :
    (jsTrim s.input = "" → s.pendingDocument = none → s.pendingBrand = none →
      handleSend env s = (s, [])) ∧
    (s.loading = true →
      handleSend env s = (s, []) ∧ handleGenerateSlides env s = (s, [])) := by
  refine ⟨fun h1 h2 h3 => ?_, fun hl => ⟨?_, ?_⟩⟩
  · unfold handleSend
    rw [if_pos (Or.inl ⟨h1, h2, h3⟩)]
  · unfold handleSend
    rw [if_pos (Or.inr hl)]
  · unfold handleGenerateSlides
    cases hc : s.conversationId with
    | none => rfl
    | some c => simp [hl]

/-- Witness for C8 at the empty initial state and at a busy state. -/
theorem submit_rejects_empty_and_busy_blocks_witness :
    handleSend envW initialState = (initialState, []) ∧
    (handleSend envW busyW = (busyW, []) ∧
      handleGenerateSlides envW busyW = (busyW, [])) :=
  ⟨(submit_rejects_empty_and_busy_blocks envW initialState).1 rfl rfl rfl,
   (submit_rejects_empty_and_busy_blocks envW busyW).2 rfl⟩

/-- C9: `resetSession` (`handleNewChat` plus the remount it triggers)
returns the session to the initial state after any prior activity: null
conversation id, empty message sequence, both session flags false, both
pending-attachment slots empty. -/
theorem resetSession_restores_initial (s : ReactState) :
    handleNewChat s = initialState ∧
    (handleNewChat s).conversationId = none ∧
    (handleNewChat s).messages = [] ∧
    (handleNewChat s).hasDocuments = false ∧
    (handleNewChat s).hasBrand = false ∧
    (handleNewChat s).pendingDocument = none ∧
    (handleNewChat s).pendingBrand = none :=
  ⟨rfl, rfl, rfl, rfl, rfl, rfl, rfl⟩

/-- C10: input consisting solely of whitespace is treated exactly like
empty text by `submit`: with no pending attachment the submit is a no-op,
and with pending attachments the optimistic user message takes the
attachment-only `Uploading: ...` form and no chat request is sent after
the uploads. -/
theorem whitespace_input_like_empty (env : Env) (s : ReactState)
    (h : jsTrim s.input = "") :
    (s.pendingDocument = none → s.pendingBrand = none → handleSend env s = (s, [])) ∧
    ((s.pendingDocument.isSome || s.pendingBrand.isSome) = true → s.loading = false →
      (∃ rest, (handleSend env s).1.messages =
        s.messages ++ fileMsgOf "" s.pendingDocument s.pendingBrand :: rest) ∧
      ∀ e ∈ (handleSend env s).2, e.isChat = false) := by
  constructor
  · intro h2 h3
    unfold handleSend
    rw [if_pos (Or.inl ⟨h, h2, h3⟩)]
  · intro hp hl
    have hg : ¬((jsTrim s.input = "" ∧ s.pendingDocument = none ∧ s.pendingBrand = none) ∨
        s.loading = true) := by
      rintro (⟨_, h2, h3⟩ | hbusy)
      · rw [h2, h3] at hp; simp at hp
      · rw [hl] at hbusy; exact Bool.false_ne_true hbusy
    rw [handleSend_files hg hp, h]
    rcases hd : s.pendingDocument with _ | d
    · rcases hb : s.pendingBrand with _ | b
      · rw [hd, hb] at hp; simp at hp
      · rw [docStep_none, exceptBind_ok]
        rcases hr : env.uploadResp b (jsOrElse s.conversationId s.conversationId) .brand
          with e | r
        · rw [brandStep_some_err hr, exceptBind_error]
          exact ⟨⟨[errMsg e], by simp⟩, by simp [NetEvent.isChat]⟩
        · rw [brandStep_some_ok hr, exceptBind_ok, chatStep_empty]
          exact ⟨⟨[], by simp⟩, by simp [NetEvent.isChat]⟩
    · rcases hr : env.uploadResp d s.conversationId .document with e | r
      · rw [docStep_some_err hr, exceptBind_error]
        exact ⟨⟨[errMsg e], by simp⟩, by simp [NetEvent.isChat]⟩
      · rw [docStep_some_ok hr, exceptBind_ok]
        rcases hb : s.pendingBrand with _ | b
        · rw [brandStep_none, exceptBind_ok, chatStep_empty]
          exact ⟨⟨[sysMsg r.summary], by simp⟩, by simp [NetEvent.isChat]⟩
        · rcases hr2 : env.uploadResp b (jsOrElse r.conversation_id s.conversationId) .brand
            with e | r2
          · rw [brandStep_some_err hr2, exceptBind_error]
            exact ⟨⟨[sysMsg r.summary, errMsg e], by simp⟩, by simp [NetEvent.isChat]⟩
          · rw [brandStep_some_ok hr2, exceptBind_ok, chatStep_empty]
            exact ⟨⟨[sysMsg r.summary], by simp⟩, by simp [NetEvent.isChat]⟩

/-- Witness for C10: a whitespace-only submit with a pending document. -/
theorem whitespace_input_like_empty_witness :
    (handleSend envW { initialState with input := "   " } =
      ({ initialState with input := "   " }, [])) ∧
    (∃ rest, (handleSend envW
        { initialState with input := "   ", pendingDocument := some "doc.pdf" }).1.messages =
      [] ++ fileMsgOf "" (some "doc.pdf") none :: rest) ∧
    ∀ e ∈ (handleSend envW
        { initialState with input := "   ", pendingDocument := some "doc.pdf" }).2,
      e.isChat = false :=
  ⟨(whitespace_input_like_empty envW { initialState with input := "   " } (by decide)).1
      rfl rfl,
   (whitespace_input_like_empty envW
      { initialState with input := "   ", pendingDocument := some "doc.pdf" }
      (by decide)).2 rfl rfl⟩

/-- C7: a successful brand-guide transmission appends no message: in a
brand-only submit with empty text the message sequence after completion
contains nothing beyond the initial optimistic attachment-summary user
message, while `hasBrand` is flipped true (and one brand upload is the
only request issued). -/
theorem brand_upload_silent (env : Env) (s : ReactState) (b : String)
    (r : UploadResult)
    (hin : jsTrim s.input = "")
    (hd : s.pendingDocument = none) (hb : s.pendingBrand = some b)
    (hl : s.loading = false)
    (hr : env.uploadResp b s.conversationId .brand = .ok r) :
    (handleSend env s).1.messages = s.messages ++ [fileMsgOf "" none (some b)] ∧
    (handleSend env s).1.hasBrand = true ∧
    (handleSend env s).2 = [.upload b s.conversationId .brand] := by
  have hg : ¬((jsTrim s.input = "" ∧ s.pendingDocument = none ∧ s.pendingBrand = none) ∨
      s.loading = true) := by
    rintro (⟨_, _, h3⟩ | hbusy)
    · rw [hb] at h3; exact Option.noConfusion h3
    · rw [hl] at hbusy; exact Bool.false_ne_true hbusy
  have hp : (s.pendingDocument.isSome || s.pendingBrand.isSome) = true := by
    rw [hd, hb]; rfl
  have hr' : env.uploadResp b (jsOrElse s.conversationId s.conversationId) .brand = .ok r := by
    rw [jsOrElse_self]; exact hr
  rw [handleSend_files hg hp, hin, hd, hb, docStep_none, exceptBind_ok,
    brandStep_some_ok hr', exceptBind_ok, chatStep_empty]
  exact ⟨rfl, rfl, by simp [jsOrElse_self]⟩

/-- Witness for C7: brand-only submit of `brand.pdf` on a fresh session
against the all-success oracle. -/
theorem brand_upload_silent_witness :
    (handleSend envW { initialState with pendingBrand := some "brand.pdf" }).1.messages =
      [] ++ [fileMsgOf "" none (some "brand.pdf")] ∧
    (handleSend envW { initialState with pendingBrand := some "brand.pdf" }).1.hasBrand = true ∧
    (handleSend envW { initialState with pendingBrand := some "brand.pdf" }).2 =
      [.upload "brand.pdf" none .brand] :=
  brand_upload_silent envW { initialState with pendingBrand := some "brand.pdf" }
    "brand.pdf" { conversation_id := some "abc123", summary := "Summary of brand.pdf" }
    rfl rfl rfl rfl rfl

/-! ## Preservation lemmas for the pipeline steps -/

/-- The store embedded in a document- or brand-step outcome. -/
def stepStA : Except StepFail (Option String × ReactState × List NetEvent) → ReactState
  | .ok (_, st, _) => st
  | .error (_, st, _) => st

/-- The store embedded in a chat-step outcome. -/
def stepStB : Except StepFail (ReactState × List NetEvent) → ReactState
  | .ok (st, _) => st
  | .error (_, st, _) => st

theorem docStep_preserves (env : Env) (c df : Option String) (st : ReactState) :
    ((stepStA (docStep env c df st)).hasDocuments = true ∨
      (stepStA (docStep env c df st)).hasDocuments = st.hasDocuments) ∧
    (st.hasBrand = true → (stepStA (docStep env c df st)).hasBrand = true) ∧
    (∀ x, c = some x → (stepStA (docStep env c df st)).conversationId = st.conversationId) := by
  cases df with
  | none => exact ⟨Or.inr rfl, fun h => h, fun _ _ => rfl⟩
  | some d =>
    rcases h : env.uploadResp d c .document with e | r
    · rw [docStep_some_err h]
      exact ⟨Or.inr rfl, fun hh => hh, fun _ _ => rfl⟩
    · rw [docStep_some_ok h]
      refine ⟨Or.inl rfl, fun hh => hh, fun x hx => ?_⟩
      subst hx
      simp [stepStA, adoptId]

theorem brandStep_preserves (env : Env) (c bf : Option String)
    (acc : Option String × ReactState × List NetEvent) :
    (acc.2.1.hasDocuments = true → (stepStA (brandStep env c bf acc)).hasDocuments = true) ∧
    ((stepStA (brandStep env c bf acc)).hasBrand = true ∨
      (stepStA (brandStep env c bf acc)).hasBrand = acc.2.1.hasBrand) ∧
    (∀ x, c = some x → (stepStA (brandStep env c bf acc)).conversationId =
      acc.2.1.conversationId) := by
  rcases acc with ⟨a, st, evs⟩
  cases bf with
  | none => exact ⟨fun h => h, Or.inr rfl, fun _ _ => rfl⟩
  | some b =>
    rcases h : env.uploadResp b (jsOrElse a c) .brand with e | r
    · rw [brandStep_some_err h]
      exact ⟨fun hh => hh, Or.inr rfl, fun _ _ => rfl⟩
    · rw [brandStep_some_ok h]
      refine ⟨fun hh => hh, Or.inl rfl, fun x hx => ?_⟩
      subst hx
      simp [stepStA, adoptId]

theorem chatStep_preserves (env : Env) (m : String) (M : List Message)
    (acc : Option String × ReactState × List NetEvent) :
    ((stepStB (chatStep env m M acc)).hasDocuments = acc.2.1.hasDocuments) ∧
    ((stepStB (chatStep env m M acc)).hasBrand = acc.2.1.hasBrand) ∧
    (m = "" → (stepStB (chatStep env m M acc)).conversationId =
      acc.2.1.conversationId) := by
  rcases acc with ⟨a, st, evs⟩
  by_cases hm : m = ""
  · subst hm
    rw [chatStep_empty]
    exact ⟨rfl, rfl, fun _ => rfl⟩
  · rcases h : env.chatResp m a (mkHistory M) with e | r
    · rw [chatStep_ne_err hm h]
      exact ⟨rfl, rfl, fun hh => absurd hh hm⟩
    · rw [chatStep_ne_ok hm h]
      exact ⟨rfl, rfl, fun hh => absurd hh hm⟩

theorem handleGenerateSlides_preserves (env : Env) (s : ReactState) :
    (handleGenerateSlides env s).1.hasDocuments = s.hasDocuments ∧
    (handleGenerateSlides env s).1.hasBrand = s.hasBrand ∧
    (handleGenerateSlides env s).1.conversationId = s.conversationId := by
  unfold handleGenerateSlides
  rcases hc : s.conversationId with _ | c
  · exact ⟨rfl, rfl, hc⟩
  · simp only []
    by_cases hl : s.loading = true
    · rw [if_pos hl]
      exact ⟨rfl, rfl, hc⟩
    · rw [if_neg hl]
      rcases hr : env.generateResp c with e | r
      · exact ⟨rfl, rfl, rfl⟩
      · exact ⟨rfl, rfl, rfl⟩

theorem handleSend_text_preserves (env : Env) (s : ReactState)
    (hg : ¬((jsTrim s.input = "" ∧ s.pendingDocument = none ∧ s.pendingBrand = none) ∨
        s.loading = true))
    (hd : s.pendingDocument = none) (hb : s.pendingBrand = none) :
    (handleSend env s).1.hasDocuments = s.hasDocuments ∧
    (handleSend env s).1.hasBrand = s.hasBrand ∧
    (∀ x, s.conversationId = some x → (handleSend env s).1.conversationId = some x) := by
  rw [handleSend_text hg hd hb]
  rcases hr : env.chatResp (jsTrim s.input) s.conversationId (mkHistory s.messages) with e | r
  · exact ⟨rfl, rfl, fun x hx => hx⟩
  · simp only []
    refine ⟨?_, ?_, fun x hx => ?_⟩
    · split <;> rfl
    · split <;> rfl
    · rw [hx]
      simp

theorem handleSend_files_flags (env : Env) (s : ReactState)
    (hg : ¬((jsTrim s.input = "" ∧ s.pendingDocument = none ∧ s.pendingBrand = none) ∨
        s.loading = true))
    (hp : (s.pendingDocument.isSome || s.pendingBrand.isSome) = true) :
    (s.hasDocuments = true → (handleSend env s).1.hasDocuments = true) ∧
    (s.hasBrand = true → (handleSend env s).1.hasBrand = true) := by
  rw [handleSend_files hg hp]
  have hD := docStep_preserves env s.conversationId s.pendingDocument
    { s with
      messages := s.messages ++
        [fileMsgOf (jsTrim s.input) s.pendingDocument s.pendingBrand]
      input := ""
      loading := true
      pendingDocument := none
      pendingBrand := none }
  rcases hdoc : docStep env s.conversationId s.pendingDocument
      { s with
        messages := s.messages ++
          [fileMsgOf (jsTrim s.input) s.pendingDocument s.pendingBrand]
        input := ""
        loading := true
        pendingDocument := none
        pendingBrand := none } with ⟨e1, st1, evs1⟩ | ⟨a1, st1, evs1⟩
  · rw [hdoc] at hD
    simp only [stepStA] at hD
    rw [exceptBind_error]
    refine ⟨fun h => ?_, fun h => ?_⟩
    · show st1.hasDocuments = true
      rcases hD.1 with h1 | h1
      · exact h1
      · exact h1.trans h
    · show st1.hasBrand = true
      exact hD.2.1 h
  · rw [hdoc] at hD
    simp only [stepStA] at hD
    rw [exceptBind_ok]
    have hB := brandStep_preserves env s.conversationId s.pendingBrand (a1, st1, evs1)
    rcases hbr : brandStep env s.conversationId s.pendingBrand (a1, st1, evs1)
        with ⟨e2, st2, evs2⟩ | ⟨a2, st2, evs2⟩
    · rw [hbr] at hB
      simp only [stepStA] at hB
      rw [exceptBind_error]
      refine ⟨fun h => ?_, fun h => ?_⟩
      · show st2.hasDocuments = true
        refine hB.1 ?_
        rcases hD.1 with h1 | h1
        · exact h1
        · exact h1.trans h
      · show st2.hasBrand = true
        rcases hB.2.1 with h2 | h2
        · exact h2
        · rw [h2]; exact hD.2.1 h
    · rw [hbr] at hB
      simp only [stepStA] at hB
      rw [exceptBind_ok]
      have hC := chatStep_preserves env (jsTrim s.input) s.messages (a2, st2, evs2)
      rcases hchat : chatStep env (jsTrim s.input) s.messages (a2, st2, evs2)
          with ⟨e3, st3, evs3⟩ | ⟨st3, evs3⟩
      all_goals rw [hchat] at hC
      all_goals simp only [stepStB] at hC
      all_goals refine ⟨fun h => ?_, fun h => ?_⟩
      case _ =>
        show st3.hasDocuments = true
        rw [hC.1]
        refine hB.1 ?_
        rcases hD.1 with h1 | h1
        · exact h1
        · exact h1.trans h
      case _ =>
        show st3.hasBrand = true
        rw [hC.2.1]
        rcases hB.2.1 with h2 | h2
        · exact h2
        · rw [h2]; exact hD.2.1 h
      case _ =>
        show st3.hasDocuments = true
        rw [hC.1]
        refine hB.1 ?_
        rcases hD.1 with h1 | h1
        · exact h1
        · exact h1.trans h
      case _ =>
        show st3.hasBrand = true
        rw [hC.2.1]
        rcases hB.2.1 with h2 | h2
        · exact h2
        · rw [h2]; exact hD.2.1 h

theorem no_files_of_not_pending {s : ReactState}
    (hp : ¬((s.pendingDocument.isSome || s.pendingBrand.isSome) = true)) :
    s.pendingDocument = none ∧ s.pendingBrand = none := by
  constructor
  · rcases hq : s.pendingDocument with _ | v
    · rfl
    · exact absurd (by rw [hq]; rfl) hp
  · rcases hq : s.pendingBrand with _ | v
    · rfl
    · exact absurd (by rw [hq]; simp) hp

theorem handleSend_files_convId (env : Env) (s : ReactState)
    (hg : ¬((jsTrim s.input = "" ∧ s.pendingDocument = none ∧ s.pendingBrand = none) ∨
        s.loading = true))
    (hp : (s.pendingDocument.isSome || s.pendingBrand.isSome) = true)
    (hm : jsTrim s.input = "") (x : String) (hx : s.conversationId = some x) :
    (handleSend env s).1.conversationId = some x := by
  rw [handleSend_files hg hp]
  have hD := docStep_preserves env s.conversationId s.pendingDocument
    { s with
      messages := s.messages ++
        [fileMsgOf (jsTrim s.input) s.pendingDocument s.pendingBrand]
      input := ""
      loading := true
      pendingDocument := none
      pendingBrand := none }
  rcases hdoc : docStep env s.conversationId s.pendingDocument
      { s with
        messages := s.messages ++
          [fileMsgOf (jsTrim s.input) s.pendingDocument s.pendingBrand]
        input := ""
        loading := true
        pendingDocument := none
        pendingBrand := none } with ⟨e1, st1, evs1⟩ | ⟨a1, st1, evs1⟩
  · rw [hdoc] at hD
    simp only [stepStA] at hD
    rw [exceptBind_error]
    show st1.conversationId = some x
    rw [hD.2.2 x hx]
    exact hx
  · rw [hdoc] at hD
    simp only [stepStA] at hD
    rw [exceptBind_ok]
    have hB := brandStep_preserves env s.conversationId s.pendingBrand (a1, st1, evs1)
    rcases hbr : brandStep env s.conversationId s.pendingBrand (a1, st1, evs1)
        with ⟨e2, st2, evs2⟩ | ⟨a2, st2, evs2⟩
    · rw [hbr] at hB
      simp only [stepStA] at hB
      rw [exceptBind_error]
      show st2.conversationId = some x
      rw [hB.2.2 x hx, hD.2.2 x hx]
      exact hx
    · rw [hbr] at hB
      simp only [stepStA] at hB
      rw [exceptBind_ok]
      have hC := chatStep_preserves env (jsTrim s.input) s.messages (a2, st2, evs2)
      rcases hchat : chatStep env (jsTrim s.input) s.messages (a2, st2, evs2)
          with ⟨e3, st3, evs3⟩ | ⟨st3, evs3⟩
      · rw [hchat] at hC
        simp only [stepStB] at hC
        show st3.conversationId = some x
        rw [hC.2.2 hm, hB.2.2 x hx, hD.2.2 x hx]
        exact hx
      · rw [hchat] at hC
        simp only [stepStB] at hC
        show st3.conversationId = some x
        rw [hC.2.2 hm, hB.2.2 x hx, hD.2.2 x hx]
        exact hx

/-- C6: once `hasDocument` or `hasBrand` is true it remains true across any
further successful or failed `submit` (`handleSend`) or `generate`
(`handleGenerateSlides`) call, whatever the service responds; it is reset
to false only by `resetSession` (`handleNewChat`), which also clears the
conversation id and the message sequence. -/
theorem session_flags_monotone_until_reset (env : Env) (s : ReactState) :
    (s.hasDocuments = true →
      (handleSend env s).1.hasDocuments = true ∧
      (handleGenerateSlides env s).1.hasDocuments = true) ∧
    (s.hasBrand = true →
      (handleSend env s).1.hasBrand = true ∧
      (handleGenerateSlides env s).1.hasBrand = true) ∧
    ((handleNewChat s).hasDocuments = false ∧ (handleNewChat s).hasBrand = false ∧
      (handleNewChat s).conversationId = none ∧ (handleNewChat s).messages = []) := by
  refine ⟨fun h => ⟨?_, ?_⟩, fun h => ⟨?_, ?_⟩, rfl, rfl, rfl, rfl⟩
  · by_cases hgd : (jsTrim s.input = "" ∧ s.pendingDocument = none ∧
        s.pendingBrand = none) ∨ s.loading = true
    · unfold handleSend; rw [if_pos hgd]; exact h
    · by_cases hp : (s.pendingDocument.isSome || s.pendingBrand.isSome) = true
      · exact (handleSend_files_flags env s hgd hp).1 h
      · obtain ⟨hd, hb⟩ := no_files_of_not_pending hp
        rw [(handleSend_text_preserves env s hgd hd hb).1]; exact h
  · rw [(handleGenerateSlides_preserves env s).1]; exact h
  · by_cases hgd : (jsTrim s.input = "" ∧ s.pendingDocument = none ∧
        s.pendingBrand = none) ∨ s.loading = true
    · unfold handleSend; rw [if_pos hgd]; exact h
    · by_cases hp : (s.pendingDocument.isSome || s.pendingBrand.isSome) = true
      · exact (handleSend_files_flags env s hgd hp).2 h
      · obtain ⟨hd, hb⟩ := no_files_of_not_pending hp
        rw [(handleSend_text_preserves env s hgd hd hb).2.1]; exact h
  · rw [(handleGenerateSlides_preserves env s).2.1]; exact h

/-- A state whose session flags are both set, with a known conversation
id and typed text. -/
def s6W : ReactState :=
  { initialState with
    hasDocuments := true
    hasBrand := true
    conversationId := some "abc123"
    input := "hi" }

/-- Witness for C6 at a state with both flags set. -/
theorem session_flags_monotone_until_reset_witness :
    ((handleSend envW s6W).1.hasDocuments = true ∧
      (handleGenerateSlides envW s6W).1.hasDocuments = true) ∧
    ((handleSend envW s6W).1.hasBrand = true ∧
      (handleGenerateSlides envW s6W).1.hasBrand = true) ∧
    ((handleNewChat s6W).hasDocuments = false ∧ (handleNewChat s6W).hasBrand = false ∧
      (handleNewChat s6W).conversationId = none ∧ (handleNewChat s6W).messages = []) :=
  ⟨(session_flags_monotone_until_reset envW s6W).1 rfl,
   (session_flags_monotone_until_reset envW s6W).2.1 rfl,
   (session_flags_monotone_until_reset envW s6W).2.2⟩

/-- A response oracle whose uploads answer with conversation id `"X"` and
whose chat endpoint answers successfully with the *different* id `"Y"`. -/
def envC2 : Env :=
  { uploadResp := fun f _ _ =>
      .ok { conversation_id := some "X", summary := "Summary of " ++ f }
    chatResp := fun _ _ _ =>
      .ok { conversation_id := some "Y", reply := "Reply", slide_download_url := none }
    generateResp := fun _ =>
      .ok { deck_title := "Deck", num_slides := 3, download_url := "/files/deck.pptx" } }

/-- A session that already holds conversation id `"X"`, with a pending
document and nonempty text. -/
def sC2 : ReactState :=
  { initialState with
    conversationId := some "X"
    pendingDocument := some "doc.pdf"
    input := "hi" }

/-- Counterexample to C2 as stated: the session's ConversationId is the
non-null `"X"`, every response of the submit succeeds, the chat response
carries the different id `"Y"` — and the stored ConversationId changes to
`"Y"`: the first assigned id does not win. -/
theorem conversationId_overwritten_cex :
    sC2.conversationId = some "X" ∧
    (handleSend envC2 sC2).1.conversationId = some "Y" ∧
    (some "Y" : Option String) ≠ some "X" :=
  ⟨rfl, by decide, by decide⟩

/-- C2 (amended): once the ConversationId is non-null, responses to
uploads, to the chat call of a text-only submit, and to generate never
change it, even when they carry a different id; the one exception is the
chat call of a submit that also carried attachments, which adopts any
truthy id in its reply unconditionally. -/
theorem conversationId_first_writer_outside_attachment_chat
    (env : Env) (s : ReactState) (x : String) (hx : s.conversationId = some x)
    (hcase : jsTrim s.input = "" ∨ (s.pendingDocument = none ∧ s.pendingBrand = none)) :
    (handleSend env s).1.conversationId = some x ∧
    (handleGenerateSlides env s).1.conversationId = some x := by
  refine ⟨?_, by rw [(handleGenerateSlides_preserves env s).2.2]; exact hx⟩
  by_cases hgd : (jsTrim s.input = "" ∧ s.pendingDocument = none ∧
      s.pendingBrand = none) ∨ s.loading = true
  · unfold handleSend; rw [if_pos hgd]; exact hx
  · by_cases hp : (s.pendingDocument.isSome || s.pendingBrand.isSome) = true
    · have hm : jsTrim s.input = "" := by
        rcases hcase with hm | ⟨hd, hb⟩
        · exact hm
        · rw [hd, hb] at hp; simp at hp
      exact handleSend_files_convId env s hgd hp hm x hx
    · obtain ⟨hd, hb⟩ := no_files_of_not_pending hp
      exact (handleSend_text_preserves env s hgd hd hb).2.2 x hx

/-- Witness for the amended C2: a text-only submit on a session holding
id `"X"` whose chat response carries the different id `"Y"` leaves the
stored id at `"X"`. -/
theorem conversationId_first_writer_witness :
    (handleSend envC2 { initialState with conversationId := some "X", input := "hi" }
      ).1.conversationId = some "X" ∧
    (handleGenerateSlides envC2 { initialState with conversationId := some "X", input := "hi" }
      ).1.conversationId = some "X" :=
  conversationId_first_writer_outside_attachment_chat envC2
    { initialState with conversationId := some "X", input := "hi" } "X" rfl
    (Or.inr ⟨rfl, rfl⟩)

/-- A session with a known conversation id but no document loaded
(reachable, e.g., after a text-only chat whose reply carried an id). -/
def sC3 : ReactState := { initialState with conversationId := some "X" }

/-- Counterexample to C3 as stated: with `hasDocument = false` but a known
ConversationId, `generate()` does issue a network call and does append
messages — the code guards only on the conversation id (the
`hasDocument` gate lives in the UI, which disables the button). -/
theorem generate_without_document_cex :
    sC3.hasDocuments = false ∧
    (handleGenerateSlides envW sC3).2 = [NetEvent.generate "X"] ∧
    (handleGenerateSlides envW sC3).1.messages ≠ sC3.messages :=
  ⟨rfl, by decide, by decide⟩

/-- C3 (amended): calling `generate()` while the ConversationId is unknown
(or while an operation is in flight) is a no-op: no network call is
issued, no message is appended, all session state is unchanged.
`generate()` does not itself check `hasDocument`; that precondition is
enforced only by the shell disabling the control. -/
theorem generate_noop_without_conversation (env : Env) (s : ReactState)
    (h : s.conversationId = none ∨ s.loading = true) :
    handleGenerateSlides env s = (s, []) := by
  unfold handleGenerateSlides
  rcases hc : s.conversationId with _ | c
  · rfl
  · rcases h with h | h
    · rw [hc] at h; cases h
    · simp only []
      rw [if_pos h]

/-- Witness for the amended C3: `generate()` on a fresh session (no
conversation id) leaves the state untouched and issues nothing. -/
theorem generate_noop_without_conversation_witness :
    handleGenerateSlides envW initialState = (initialState, []) :=
  generate_noop_without_conversation envW initialState (Or.inl rfl)

/-- C1: in a submit where both attachments are pending, the document
upload is transmitted first; the brand upload is issued second and
carries exactly the conversation id returned by the document-upload
response (with the captured id as fallback, per `existingConvId ||
conversationId`); and whatever follows those two uploads in the request
trace consists of chat requests only — so any chat is sent only after
all attachment transmissions. -/
theorem document_upload_before_brand_before_chat (env : Env) (s : ReactState)
    (d b : String) (r : UploadResult)
    (hd : s.pendingDocument = some d) (hb : s.pendingBrand = some b)
    (hl : s.loading = false)
    (hr : env.uploadResp d s.conversationId .document = .ok r) :
    (handleSend env s).2.take 2 =
      [.upload d s.conversationId .document,
       .upload b (jsOrElse r.conversation_id s.conversationId) .brand] ∧
    ∀ e ∈ (handleSend env s).2.drop 2, e.isChat = true := by
  have hg : ¬((jsTrim s.input = "" ∧ s.pendingDocument = none ∧ s.pendingBrand = none) ∨
      s.loading = true) := by
    rintro (⟨_, h2, _⟩ | hbusy)
    · rw [hd] at h2; cases h2
    · rw [hl] at hbusy; cases hbusy
  have hp : (s.pendingDocument.isSome || s.pendingBrand.isSome) = true := by
    rw [hd]; rfl
  rw [handleSend_files hg hp, hd, hb, docStep_some_ok hr, exceptBind_ok]
  rcases hr2 : env.uploadResp b (jsOrElse r.conversation_id s.conversationId) .brand
      with e2 | r2
  · rw [brandStep_some_err hr2, exceptBind_error]
    exact ⟨rfl, by simp⟩
  · rw [brandStep_some_ok hr2, exceptBind_ok]
    by_cases hm : jsTrim s.input = ""
    · rw [hm, chatStep_empty]
      exact ⟨rfl, by simp⟩
    · rcases hr3 : env.chatResp (jsTrim s.input) r2.conversation_id (mkHistory s.messages)
          with e3 | r3
      · rw [chatStep_ne_err hm hr3]
        exact ⟨rfl, by simp [NetEvent.isChat]⟩
      · rw [chatStep_ne_ok hm hr3]
        exact ⟨rfl, by simp [NetEvent.isChat]⟩

/-- A submit with both attachments pending and accompanying text. -/
def s1W : ReactState :=
  { initialState with
    pendingDocument := some "doc.pdf"
    pendingBrand := some "brand.pdf"
    input := "hi" }

/-- Witness for C1: both uploads pending on a fresh session; the document
upload goes first with a null id, the brand upload second carrying the
id `"abc123"` the document response returned. -/
theorem document_upload_before_brand_before_chat_witness :
    (handleSend envW s1W).2.take 2 =
      [.upload "doc.pdf" none .document, .upload "brand.pdf" (some "abc123") .brand] ∧
    ∀ e ∈ (handleSend envW s1W).2.drop 2, e.isChat = true :=
  document_upload_before_brand_before_chat envW s1W "doc.pdf" "brand.pdf"
    { conversation_id := some "abc123", summary := "Summary of doc.pdf" }
    rfl rfl rfl rfl

/-- C5: whenever the trimmed user text is nonempty, the chat request sent
after any attachment transmissions carries the full prior message history
with system-role entries excluded (each entry the pair of role and
content, via `mkHistory`) together with the resolved conversation id —
the captured one when no attachments were sent, otherwise the one
returned by the last upload; on success an assistant message with the
reply text and optional slide-download URL is appended.  Stated for the
four submit configurations: no attachments, document only, document plus
brand, and brand only (where the chat carries the brand upload's
returned id and no summary message intervenes, brand ingestion being
silent). -/
theorem chat_request_history_and_reply (env : Env) (s : ReactState)
    (hm : jsTrim s.input ≠ "") (hl : s.loading = false) :
    (s.pendingDocument = none → s.pendingBrand = none →
      (handleSend env s).2 =
        [.chat (jsTrim s.input) s.conversationId (mkHistory s.messages)] ∧
      (∀ r, env.chatResp (jsTrim s.input) s.conversationId (mkHistory s.messages) = .ok r →
        (handleSend env s).1.messages =
          s.messages ++ [({ role := .user, content := jsTrim s.input } : Message),
            assistantMsgOf r])) ∧
    (∀ d rd, s.pendingDocument = some d → s.pendingBrand = none →
      env.uploadResp d s.conversationId .document = .ok rd →
      (handleSend env s).2 =
        [.upload d s.conversationId .document,
         .chat (jsTrim s.input) rd.conversation_id (mkHistory s.messages)] ∧
      (∀ r, env.chatResp (jsTrim s.input) rd.conversation_id (mkHistory s.messages) = .ok r →
        (handleSend env s).1.messages =
          s.messages ++ [fileMsgOf (jsTrim s.input) (some d) none, sysMsg rd.summary,
            assistantMsgOf r])) ∧
    (∀ d b rd rb, s.pendingDocument = some d → s.pendingBrand = some b →
      env.uploadResp d s.conversationId .document = .ok rd →
      env.uploadResp b (jsOrElse rd.conversation_id s.conversationId) .brand = .ok rb →
      (handleSend env s).2 =
        [.upload d s.conversationId .document,
         .upload b (jsOrElse rd.conversation_id s.conversationId) .brand,
         .chat (jsTrim s.input) rb.conversation_id (mkHistory s.messages)] ∧
      (∀ r, env.chatResp (jsTrim s.input) rb.conversation_id (mkHistory s.messages) = .ok r →
        (handleSend env s).1.messages =
          s.messages ++ [fileMsgOf (jsTrim s.input) (some d) (some b), sysMsg rd.summary,
            assistantMsgOf r])) ∧
    (∀ b rb, s.pendingDocument = none → s.pendingBrand = some b →
      env.uploadResp b s.conversationId .brand = .ok rb →
      (handleSend env s).2 =
        [.upload b s.conversationId .brand,
         .chat (jsTrim s.input) rb.conversation_id (mkHistory s.messages)] ∧
      (∀ r, env.chatResp (jsTrim s.input) rb.conversation_id (mkHistory s.messages) = .ok r →
        (handleSend env s).1.messages =
          s.messages ++ [fileMsgOf (jsTrim s.input) none (some b), assistantMsgOf r])) := by
  refine ⟨fun hd hb => ?_, fun d rd hd hb hr => ?_, fun d b rd rb hd hb hr hr2 => ?_,
    fun b rb hd hb hr => ?_⟩
  · have hg : ¬((jsTrim s.input = "" ∧ s.pendingDocument = none ∧ s.pendingBrand = none) ∨
        s.loading = true) := by
      rintro (⟨h1, _, _⟩ | hbusy)
      · exact hm h1
      · rw [hl] at hbusy; cases hbusy
    rw [handleSend_text hg hd hb]
    rcases hr : env.chatResp (jsTrim s.input) s.conversationId (mkHistory s.messages)
        with e | r
    · exact ⟨rfl, fun r hok => Except.noConfusion hok⟩
    · refine ⟨rfl, fun r2 hok => ?_⟩
      cases hok
      simp only []
      split <;> simp
  · have hg : ¬((jsTrim s.input = "" ∧ s.pendingDocument = none ∧ s.pendingBrand = none) ∨
        s.loading = true) := by
      rintro (⟨h1, _, _⟩ | hbusy)
      · exact hm h1
      · rw [hl] at hbusy; cases hbusy
    have hp : (s.pendingDocument.isSome || s.pendingBrand.isSome) = true := by
      rw [hd]; rfl
    rw [handleSend_files hg hp, hd, hb, docStep_some_ok hr, exceptBind_ok,
      brandStep_none, exceptBind_ok]
    rcases hr3 : env.chatResp (jsTrim s.input) rd.conversation_id (mkHistory s.messages)
        with e | r
    · rw [chatStep_ne_err hm hr3]
      exact ⟨rfl, fun r hok => Except.noConfusion hok⟩
    · rw [chatStep_ne_ok hm hr3]
      refine ⟨rfl, fun r2 hok => ?_⟩
      cases hok
      simp only []
      simp
  · have hg : ¬((jsTrim s.input = "" ∧ s.pendingDocument = none ∧ s.pendingBrand = none) ∨
        s.loading = true) := by
      rintro (⟨h1, _, _⟩ | hbusy)
      · exact hm h1
      · rw [hl] at hbusy; cases hbusy
    have hp : (s.pendingDocument.isSome || s.pendingBrand.isSome) = true := by
      rw [hd]; rfl
    rw [handleSend_files hg hp, hd, hb, docStep_some_ok hr, exceptBind_ok,
      brandStep_some_ok hr2, exceptBind_ok]
    rcases hr3 : env.chatResp (jsTrim s.input) rb.conversation_id (mkHistory s.messages)
        with e | r
    · rw [chatStep_ne_err hm hr3]
      exact ⟨rfl, fun r hok => Except.noConfusion hok⟩
    · rw [chatStep_ne_ok hm hr3]
      refine ⟨rfl, fun r2 hok => ?_⟩
      cases hok
      simp only []
      simp
  · have hg : ¬((jsTrim s.input = "" ∧ s.pendingDocument = none ∧ s.pendingBrand = none) ∨
        s.loading = true) := by
      rintro (⟨h1, _, _⟩ | hbusy)
      · exact hm h1
      · rw [hl] at hbusy; cases hbusy
    have hp : (s.pendingDocument.isSome || s.pendingBrand.isSome) = true := by
      rw [hd, hb]; rfl
    have hr' : env.uploadResp b (jsOrElse s.conversationId s.conversationId) .brand = .ok rb := by
      rw [jsOrElse_self]; exact hr
    rw [handleSend_files hg hp, hd, hb, docStep_none, exceptBind_ok,
      brandStep_some_ok hr', exceptBind_ok]
    rcases hr3 : env.chatResp (jsTrim s.input) rb.conversation_id (mkHistory s.messages)
        with e | r
    · rw [chatStep_ne_err hm hr3]
      exact ⟨by simp [jsOrElse_self], fun r hok => Except.noConfusion hok⟩
    · rw [chatStep_ne_ok hm hr3]
      refine ⟨by simp [jsOrElse_self], fun r2 hok => ?_⟩
      cases hok
      simp only []
      simp

/-- Witness for C5: a text-only submit of `"hi"` on a session with one
prior user message and one prior system message — the request carries
only the non-system entry — followed by the assistant reply; and a
brand-only submit of `"hi"` with `brand.pdf` pending, whose chat request
carries the id returned by the brand upload. -/
theorem chat_request_history_and_reply_witness :
    (handleSend envW
      { initialState with
        input := "hi"
        messages := [{ role := .user, content := "earlier" }, sysMsg "note"] }).2 =
      [.chat "hi" none [⟨Role.user, "earlier"⟩]] ∧
    (handleSend envW
      { initialState with
        input := "hi"
        messages := [{ role := .user, content := "earlier" }, sysMsg "note"] }).1.messages =
      [({ role := .user, content := "earlier" } : Message), sysMsg "note"] ++
        [({ role := .user, content := "hi" } : Message),
         assistantMsgOf
           { conversation_id := some "abc123"
             reply := "Reply"
             slide_download_url := none }] ∧
    (handleSend envW
      { initialState with input := "hi", pendingBrand := some "brand.pdf" }).2 =
      [.upload "brand.pdf" none .brand, .chat "hi" (some "abc123") []] ∧
    (handleSend envW
      { initialState with input := "hi", pendingBrand := some "brand.pdf" }).1.messages =
      [] ++ [fileMsgOf "hi" none (some "brand.pdf"),
        assistantMsgOf
          { conversation_id := some "abc123"
            reply := "Reply"
            slide_download_url := none }] := by
  have h := ((chat_request_history_and_reply envW
    { initialState with
      input := "hi"
      messages := [{ role := .user, content := "earlier" }, sysMsg "note"] }
    (by decide) rfl).1 rfl rfl)
  have h2 := ((chat_request_history_and_reply envW
    { initialState with input := "hi", pendingBrand := some "brand.pdf" }
    (by decide) rfl).2.2.2 "brand.pdf"
    { conversation_id := some "abc123", summary := "Summary of brand.pdf" }
    rfl rfl rfl)
  exact ⟨h.1, h.2
    { conversation_id := some "abc123"
      reply := "Reply"
      slide_download_url := none } rfl,
    h2.1, h2.2
    { conversation_id := some "abc123"
      reply := "Reply"
      slide_download_url := none } rfl⟩

end SlideForge
